import Mathlib

/-!
Verification of the yijinjing IO layer
(src/core/cpp/yijinjing/src/io/io.cpp): the ipc URL factory, the
no-op and nanomsg publishers, the nanomsg observer, the master
service client, and the io_device / io_device_client composition
roots, shallowly embedded in Lean.
-/

namespace Kungfu

/-- Modelled from the spec: `mode` of a location, "live vs. simulated/replay"
(the enum itself is declared in a header outside src/). -/
inductive Mode
  | LIVE
  | REPLAY
  deriving DecidableEq, Repr

/-- Modelled from the spec: `category` of a location, "system-level vs.
application-level" (the enum itself is declared in a header outside src/). -/
inductive Category
  | SYSTEM
  | APPLICATION
  deriving DecidableEq, Repr

/-- Modelled from the spec: `get_category_name`, the printable name of a
category used as a path component (declared in a header outside src/). -/
def get_category_name : Category → String
  | Category.SYSTEM => "system"
  | Category.APPLICATION => "application"

/-- The six protocol roles of the three two-party messaging patterns:
pipeline (PUSH/PULL), broadcast (PUBLISH/SUBSCRIBE), and synchronous
round trip (REQUEST/REPLY). Declared in a nanomsg header outside src/;
the constructors follow the spec's role list. -/
inductive Protocol
  | PUSH
  | PULL
  | PUBLISH
  | SUBSCRIBE
  | REQUEST
  | REPLY
  deriving DecidableEq, Repr

/-- Modelled from the spec: `get_opposite_protol` (the source's spelling),
the total opposite-role function pairing PUSH↔PULL, PUBLISH↔SUBSCRIBE,
REQUEST↔REPLY (declared in a nanomsg header outside src/). -/
def get_opposite_protol : Protocol → Protocol
  | Protocol.PUSH => Protocol.PULL
  | Protocol.PULL => Protocol.PUSH
  | Protocol.PUBLISH => Protocol.SUBSCRIBE
  | Protocol.SUBSCRIBE => Protocol.PUBLISH
  | Protocol.REQUEST => Protocol.REPLY
  | Protocol.REPLY => Protocol.REQUEST

/-- Modelled from the spec: `get_protocol_name`, the printable name of a
protocol role used as the final address component (declared in a nanomsg
header outside src/). What matters for the claims is only that it is a
fixed injective naming of the six roles. -/
def get_protocol_name : Protocol → String
  | Protocol.PUSH => "push"
  | Protocol.PULL => "pull"
  | Protocol.PUBLISH => "publish"
  | Protocol.SUBSCRIBE => "subscribe"
  | Protocol.REQUEST => "request"
  | Protocol.REPLY => "reply"

/-- A location: the structured identity (mode, category, group, name) used
as an addressing key. Mirrors `data::location` (declared outside src/,
fields as listed in the spec's data model). -/
structure Location where
  mode : Mode
  category : Category
  group : String
  name : String
  deriving DecidableEq, Repr

/-- Modelled from the spec: `KF_DIR_SOCKET`, the base socket directory
supplied by the deployment environment (outside this layer's concern
beyond string concatenation). -/
def KF_DIR_SOCKET : String := "/kf/runtime/socket"

/-- Modelled from the spec: `util::make_path`, process-local filesystem
path construction joining components with `/` (declared outside src/). -/
def make_path (components : List String) : String :=
  String.intercalate "/" components

/-- `ipc_url_factory::make_url_bind` (io.cpp line 41): scheme `ipc://`,
then the socket dir built from KF_DIR_SOCKET, the category name and the
group, then `/name.` and the role's own protocol name. -/
def make_url_bind (location : Location) (p : Protocol) : String :=
  let socket_dir :=
    make_path [KF_DIR_SOCKET, get_category_name location.category, location.group]
  "ipc://" ++ socket_dir ++ "/" ++ location.name ++ "." ++ get_protocol_name p

/-- `ipc_url_factory::make_url_connect` (io.cpp line 47): as
`make_url_bind` but the final component is the name of the opposite
protocol role. -/
def make_url_connect (location : Location) (p : Protocol) : String :=
  let socket_dir :=
    make_path [KF_DIR_SOCKET, get_category_name location.category, location.group]
  "ipc://" ++ socket_dir ++ "/" ++ location.name ++ "."
    ++ get_protocol_name (get_opposite_protol p)

/-- Result of a publisher operation: either the transport status code the
call returned, or a thrown `journal_error` with its message (the dedicated
error kind, declared outside src/). -/
inductive PublishResult
  | status (code : Int)
  | journal_error (message : String)
  deriving DecidableEq, Repr

/-- Outcome of a publisher entry point: the payloads handed to the
transport for sending, in order, and the returned status or thrown
error. -/
structure SendOutcome where
  sends : List String
  result : PublishResult
  deriving DecidableEq, Repr

/-- `noop_publisher::notify` (io.cpp line 57): returns 0 and touches no
transport (the class owns no socket). -/
def noop_publisher.notify : SendOutcome :=
  { sends := [], result := PublishResult.status 0 }

/-- `noop_publisher::publish` (io.cpp line 62): throws a `journal_error`
before any send for every message. -/
def noop_publisher.publish (_json_message : String) : SendOutcome :=
  { sends := [],
    result := PublishResult.journal_error "noop publisher does not publish anything" }

/-- State of a `nanomsg_publisher` (io.cpp line 68): the low-latency flag
and the protocol and connected url of its one socket. -/
structure NanomsgPublisher where
  low_latency : Bool
  socket_protocol : Protocol
  socket_url : String
  deriving DecidableEq, Repr

/-- `nanomsg_publisher::nanomsg_publisher` (io.cpp line 71): the socket is
created with `protocol::PUSH` and connected to the connect url of the
inline location `(LIVE, SYSTEM, "master", "master")` for the socket's own
protocol. -/
def nanomsg_publisher.construct (low_latency : Bool) : NanomsgPublisher :=
  let p := Protocol.PUSH
  { low_latency := low_latency
    socket_protocol := p
    socket_url :=
      make_url_connect (Location.mk Mode.LIVE Category.SYSTEM "master" "master") p }

/-- `nanomsg_publisher::publish` (io.cpp line 90): sends the message on the
socket and returns the transport's send status. The transport is modelled
by `transport_status`, giving the status code the send of each payload
returns. -/
def nanomsg_publisher.publish (transport_status : String → Int)
    (json_message : String) : SendOutcome :=
  { sends := [json_message],
    result := PublishResult.status (transport_status json_message) }

/-- `nanomsg_publisher::notify` (io.cpp line 85):
`low_latency_ ? 0 : publish("\x7b\x7d")`. -/
def nanomsg_publisher.notify (pub : NanomsgPublisher)
    (transport_status : String → Int) : SendOutcome :=
  if pub.low_latency then { sends := [], result := PublishResult.status 0 }
  else nanomsg_publisher.publish transport_status "\x7b\x7d"

/-- `DEFAULT_NOTICE_TIMEOUT`. Modelled from the spec: the single tunable
default wait duration (order of seconds, in milliseconds), declared in a
header outside src/. -/
def DEFAULT_NOTICE_TIMEOUT : Int := 1000

/-- State of a `nanomsg_observer` (io.cpp line 100): its socket's protocol,
connected url, configured receive timeout, subscription topic option, and
the most recently received message. -/
structure NanomsgObserver where
  socket_protocol : Protocol
  socket_url : String
  recv_timeout : Int
  subscription : String
  last_message : String
  deriving DecidableEq, Repr

/-- `nanomsg_observer::nanomsg_observer` (io.cpp line 103): a SUBSCRIBE
socket connected to the connect url of the inline location
`(LIVE, SYSTEM, "master", "master")`, receive timeout 0 when low-latency
else `DEFAULT_NOTICE_TIMEOUT`, subscribed to the empty topic. -/
def nanomsg_observer.construct (low_latency : Bool) : NanomsgObserver :=
  let timeout : Int := if low_latency then 0 else DEFAULT_NOTICE_TIMEOUT
  let p := Protocol.SUBSCRIBE
  { socket_protocol := p
    socket_url :=
      make_url_connect (Location.mk Mode.LIVE Category.SYSTEM "master" "master") p
    recv_timeout := timeout
    subscription := ""
    last_message := "" }

/-- What one receive attempt on the socket observes: a frame with its
content, or expiry of the receive timeout. -/
inductive RecvEvent
  | frame (content : String)
  | rcv_timeout
  deriving DecidableEq, Repr

/-- Modelled from the spec: `socket::recv` of the transport wrapper
(declared outside src/) returns the byte count of a received frame and
stores the frame as the last message; on timeout it returns a negative
status and leaves the last message unchanged. -/
def socket_recv (ev : RecvEvent) (ob : NanomsgObserver) : Int × NanomsgObserver :=
  match ev with
  | RecvEvent.frame content =>
      ((content.utf8ByteSize : Int), { ob with last_message := content })
  | RecvEvent.rcv_timeout => (-1, ob)

/-- `nanomsg_observer::wait` (io.cpp line 120): `socket_.recv() > 2`. -/
def nanomsg_observer.wait (ob : NanomsgObserver) (ev : RecvEvent) :
    Bool × NanomsgObserver :=
  let r := socket_recv ev ob
  (decide (r.1 > 2), r.2)

/-- `nanomsg_observer::get_notice` (io.cpp line 125): the socket's last
received message. -/
def nanomsg_observer.get_notice (ob : NanomsgObserver) : String :=
  ob.last_message

/-- Configuration of a `nanomsg_master_service` socket (io.cpp line 135):
protocol and connected url. -/
structure MasterServiceConfig where
  socket_protocol : Protocol
  socket_url : String
  deriving DecidableEq, Repr

/-- `nanomsg_master_service::nanomsg_master_service` (io.cpp line 138): a
REQUEST socket connected to the connect url of the inline location
`(LIVE, SYSTEM, "master", "master")` for the socket's own protocol. -/
def nanomsg_master_service.construct : MasterServiceConfig :=
  let p := Protocol.REQUEST
  { socket_protocol := p
    socket_url :=
      make_url_connect (Location.mk Mode.LIVE Category.SYSTEM "master" "master") p }

/-- Wire state of the request/reply socket: the payloads sent so far, in
order, and the replies pending to be received, in order. -/
structure ReqSocket where
  sent : List String
  incoming : List String
  deriving DecidableEq, Repr

/-- Modelled from the spec: `socket::send` on the request socket (declared
outside src/) hands the payload to the transport. -/
def req_socket_send (s : ReqSocket) (msg : String) : ReqSocket :=
  { s with sent := s.sent ++ [msg] }

/-- Modelled from the spec: `socket::recv_msg` (declared outside src/)
blocks for exactly one message and returns its bytes; with nothing
incoming it blocks forever (`none`). -/
def req_socket_recv_msg (s : ReqSocket) : Option (String × ReqSocket) :=
  match s.incoming with
  | [] => none
  | reply :: rest => some (reply, { s with incoming := rest })

/-- `nanomsg_master_service::request` (io.cpp line 150):
`socket_.send(json_message); return socket_.recv_msg();`. -/
def nanomsg_master_service.request (s : ReqSocket) (json_message : String) :
    Option (String × ReqSocket) :=
  req_socket_recv_msg (req_socket_send s json_message)

/-- State of an `io_device` (io.cpp line 161): the two flags; the url
factory it creates is always the `ipc_url_factory` embedded above. -/
structure IoDevice where
  low_latency : Bool
  lazy : Bool
  deriving DecidableEq, Repr

/-- `io_device::io_device` (io.cpp line 161). -/
def io_device.construct (low_latency lazy : Bool) : IoDevice :=
  { low_latency := low_latency, lazy := lazy }

/-- State of an `io_device_client` (io.cpp line 212): the base device, the
client name, and the observer and master service built at construction. -/
structure IoDeviceClient where
  device : IoDevice
  name : String
  observer : NanomsgObserver
  service : MasterServiceConfig
  deriving DecidableEq, Repr

/-- `io_device_client::io_device_client` (io.cpp line 212): delegates to
`io_device(low_latency, true)` — the lazy flag is the literal `true` — and
builds the observer and master service against the device's url factory
and low-latency flag. -/
def io_device_client.construct (name : String) (low_latency : Bool) :
    IoDeviceClient :=
  { device := io_device.construct low_latency true
    name := name
    observer := nanomsg_observer.construct low_latency
    service := nanomsg_master_service.construct }

/-- `io_device_client::create_io_device` (io.cpp line 221): constructs the
client and installs a `nanomsg_publisher` built with the same low-latency
flag. -/
def io_device_client.create_io_device (name : String) (low_latency : Bool) :
    IoDeviceClient × NanomsgPublisher :=
  (io_device_client.construct name low_latency,
   nanomsg_publisher.construct low_latency)

theorem make_path_three (a b c : String) :
    make_path [a, b, c] = a ++ "/" ++ b ++ "/" ++ c := by
  simp [make_path, String.intercalate, String.intercalate.go, String.append_assoc]

theorem opposite_involutive (p : Protocol) :
    get_opposite_protol (get_opposite_protol p) = p := by
  cases p <;> rfl

end Kungfu

namespace Kungfu

/-- C1: for every location L and every protocol role R, the bind address
equals the connect address of the opposite role:
`make_url_bind L R = make_url_connect L (opposite R)`. -/
theorem bind_eq_connect_opposite (L : Location) (R : Protocol) :
    make_url_bind L R = make_url_connect L (get_opposite_protol R) := by
  unfold make_url_bind make_url_connect
  rw [opposite_involutive]

/-- C3: the bind address is exactly scheme, base socket dir, category
name, group, location name, a dot, and the role's own protocol name; the
connect address is the same with the opposite role's name. -/
theorem url_format (L : Location) (R : Protocol) :
    make_url_bind L R =
      "ipc://" ++ KF_DIR_SOCKET ++ "/" ++ get_category_name L.category
        ++ "/" ++ L.group ++ "/" ++ L.name ++ "." ++ get_protocol_name R
    ∧ make_url_connect L R =
      "ipc://" ++ KF_DIR_SOCKET ++ "/" ++ get_category_name L.category
        ++ "/" ++ L.group ++ "/" ++ L.name ++ "."
        ++ get_protocol_name (get_opposite_protol R) := by
  constructor <;>
    simp [make_url_bind, make_url_connect, make_path_three, String.append_assoc]

/-- C2 counterexample: the active publisher's socket is not opened with
the broadcast (PUBLISH) role, and its address is not the connect address
for the broadcast role — at the concrete construction with
low-latency off. -/
theorem publisher_role_not_broadcast :
    (nanomsg_publisher.construct false).socket_protocol ≠ Protocol.PUBLISH
    ∧ (nanomsg_publisher.construct false).socket_url ≠
        make_url_connect (Location.mk Mode.LIVE Category.SYSTEM "master" "master")
          Protocol.PUBLISH := by
  constructor <;> decide

/-- C2 amended: for every low-latency flag, the active publisher's egress
socket to the coordination location is opened with the PUSH (pipeline)
role and its address is resolved via `make_url_connect` for that PUSH
role. -/
theorem publisher_role_push (low_latency : Bool) :
    (nanomsg_publisher.construct low_latency).socket_protocol = Protocol.PUSH
    ∧ (nanomsg_publisher.construct low_latency).socket_url =
        make_url_connect (Location.mk Mode.LIVE Category.SYSTEM "master" "master")
          Protocol.PUSH :=
  ⟨rfl, rfl⟩

/-- C4: on the no-op publisher, `notify` returns status 0 with no sends,
and `publish m` for every message m throws the dedicated `journal_error`
(never a status) and sends nothing. -/
theorem noop_publisher_contract :
    noop_publisher.notify = { sends := [], result := PublishResult.status 0 }
    ∧ (∀ m : String,
        noop_publisher.publish m =
          { sends := [],
            result := PublishResult.journal_error
              "noop publisher does not publish anything" })
    ∧ (∀ (m : String) (c : Int),
        (noop_publisher.publish m).result ≠ PublishResult.status c) := by
  refine ⟨rfl, fun m => rfl, fun m c => ?_⟩
  simp [noop_publisher.publish]

/-- C5: on the active publisher, with the low-latency flag set `notify`
performs zero sends and returns status 0; with it clear, `notify`
performs exactly one send whose payload is the two-character heartbeat
token and returns that send's transport status. -/
theorem notify_low_latency_bypass (transport_status : String → Int) :
    nanomsg_publisher.notify (nanomsg_publisher.construct true) transport_status =
      { sends := [], result := PublishResult.status 0 }
    ∧ nanomsg_publisher.notify (nanomsg_publisher.construct false) transport_status =
      { sends := ["\x7b\x7d"],
        result := PublishResult.status (transport_status "\x7b\x7d") }
    ∧ String.length "\x7b\x7d" = 2 :=
  ⟨rfl, rfl, rfl⟩

/-- C6: `wait` on a received frame returns true iff the frame's byte
length exceeds 2; when it does, `get_notice` returns exactly that frame's
bytes; a frame of length at most 2, or a timeout, makes `wait` return
false. -/
theorem observer_filtering (ob : NanomsgObserver) (c : String) :
    ((nanomsg_observer.wait ob (RecvEvent.frame c)).1 = true ↔
        2 < c.utf8ByteSize)
    ∧ (2 < c.utf8ByteSize →
        nanomsg_observer.get_notice
          (nanomsg_observer.wait ob (RecvEvent.frame c)).2 = c)
    ∧ (c.utf8ByteSize ≤ 2 →
        (nanomsg_observer.wait ob (RecvEvent.frame c)).1 = false)
    ∧ (nanomsg_observer.wait ob RecvEvent.rcv_timeout).1 = false := by
  refine ⟨?_, fun _ => rfl, fun h => ?_, rfl⟩
  · simp [nanomsg_observer.wait, socket_recv]
  · simp [nanomsg_observer.wait, socket_recv]
    omega

/-- C6 witness: the filtering behaviour at the concrete frame "abc" of
byte length 3, evaluated on a freshly constructed observer. -/
theorem observer_filtering_witness :
    ((nanomsg_observer.wait (nanomsg_observer.construct false)
        (RecvEvent.frame "abc")).1 = true ↔ 2 < String.utf8ByteSize "abc")
    ∧ nanomsg_observer.get_notice
        (nanomsg_observer.wait (nanomsg_observer.construct false)
          (RecvEvent.frame "abc")).2 = "abc"
    ∧ ((nanomsg_observer.wait (nanomsg_observer.construct false)
        (RecvEvent.frame "ab")).1 = false) :=
  ⟨(observer_filtering (nanomsg_observer.construct false) "abc").1,
   (observer_filtering (nanomsg_observer.construct false) "abc").2.1 (by decide),
   (observer_filtering (nanomsg_observer.construct false) "ab").2.2.1 (by decide)⟩

/-- C7: an observer constructed with the low-latency flag set has receive
timeout exactly 0; with the flag clear it has exactly the single default
constant `DEFAULT_NOTICE_TIMEOUT`. -/
theorem observer_timeout_selection :
    (nanomsg_observer.construct true).recv_timeout = 0
    ∧ (nanomsg_observer.construct false).recv_timeout = DEFAULT_NOTICE_TIMEOUT :=
  ⟨rfl, rfl⟩

/-- C8: the active publisher, the observer, and the master service client
all resolve their connect address against one and the same fixed
coordination location — mode LIVE, category SYSTEM, group and name both
"master" — each for its own socket's protocol. -/
theorem coordination_location_fixed (low_latency : Bool) :
    (nanomsg_publisher.construct low_latency).socket_url =
      make_url_connect (Location.mk Mode.LIVE Category.SYSTEM "master" "master")
        (nanomsg_publisher.construct low_latency).socket_protocol
    ∧ (nanomsg_observer.construct low_latency).socket_url =
      make_url_connect (Location.mk Mode.LIVE Category.SYSTEM "master" "master")
        (nanomsg_observer.construct low_latency).socket_protocol
    ∧ nanomsg_master_service.construct.socket_url =
      make_url_connect (Location.mk Mode.LIVE Category.SYSTEM "master" "master")
        nanomsg_master_service.construct.socket_protocol :=
  ⟨rfl, rfl, rfl⟩

/-- C9: `request m` first sends m on the request socket (the sent trace
grows by exactly [m]), then performs exactly one blocking receive on the
same socket (the incoming queue shrinks by exactly its head), and returns
the received reply bytes unmodified. -/
theorem master_service_round_trip (s : ReqSocket) (m reply : String)
    (rest : List String) (h : s.incoming = reply :: rest) :
    nanomsg_master_service.request s m =
      some (reply, { sent := s.sent ++ [m], incoming := rest }) := by
  simp [nanomsg_master_service.request, req_socket_send, req_socket_recv_msg, h]

/-- C9 witness: the round trip at a concrete socket holding one pending
reply "pong", requesting "ping". -/
theorem master_service_round_trip_witness :
    nanomsg_master_service.request
        { sent := [], incoming := ["pong"] } "ping" =
      some ("pong", { sent := [] ++ ["ping"], incoming := [] }) :=
  master_service_round_trip { sent := [], incoming := ["pong"] } "ping" "pong" []
    rfl

/-- C10: every io_device_client — via its constructor and via its factory,
for every name and low-latency argument — carries the lazy flag equal to
true; the flag is fixed by the constructor, not choosable. -/
theorem client_always_lazy (name : String) (low_latency : Bool) :
    (io_device_client.construct name low_latency).device.lazy = true
    ∧ (io_device_client.create_io_device name low_latency).1.device.lazy = true :=
  ⟨rfl, rfl⟩

end Kungfu
